import Mathlib

/-!
Shallow embedding of the NewNa segmentation viewer core
(`SegmentationViewer.js` and the prediction-processing part of `App.js`).

Coordinates are modelled as exact rationals (`ℚ`); JS objects become
structures, the component's state variables become fields of `ViewerState`,
and each mouse handler becomes a state-transition function.  Absent JS
object fields are modelled by `Option`, the `||` fallback on numbers by
`jsOr` (0 is falsy), and `fadeOut`-less boxes carry `fadeOut = false`
(matching `!b.fadeOut` on `undefined`).
-/

/-- A bounding box as stored in `allBoxes`: natural-space geometry plus the
fields set at creation (`category_id` may be `null`, modelled as `none`). -/
structure Box where
  id : String
  x : ℚ
  y : ℚ
  width : ℚ
  height : ℚ
  category_id : Option Int
  isBackend : Bool
  file_name : String
  fadeOut : Bool
deriving DecidableEq, Repr

/-- Result of the `scaledBoxes` map: the JS spread `{...box, scaledX, ...}`
keeps every original field and adds the four scaled ones. -/
structure ScaledBox where
  box : Box
  scaledX : ℚ
  scaledY : ℚ
  scaledW : ℚ
  scaledH : ℚ
deriving DecidableEq, Repr

/-- The `filterCategory` prop: the sentinel string `'all'` or a category id
(already parsed, as `parseInt(filterCategory, 10)` does). -/
inductive CategoryFilter where
  | all : CategoryFilter
  | cat : Int → CategoryFilter
deriving DecidableEq, Repr

/-- The `resizingCorner` state value (`'top-left'` or `'bottom-right'`). -/
inductive Corner where
  | topLeft : Corner
  | bottomRight : Corner
deriving DecidableEq, Repr

/-- The component state variables that the mouse handlers read and write. -/
structure ViewerState where
  allBoxes : List Box
  isDrawing : Bool
  currentBox : Option Box
  isResizing : Bool
  activeBoxId : Option String
  resizingCorner : Option Corner
  selectedBoxId : Option String
  editingBoxId : Option String
  isCategoryMenuOpen : Bool
deriving DecidableEq, Repr

/-- JS `a || b` on non-negative numbers: `0` is falsy. -/
def jsOr (a b : ℚ) : ℚ :=
  if a = 0 then b else a

/-- The scale-factor effect:
`naturalW = naturalWidth || 1`, `displayW = clientWidth || naturalW`,
`scaleX = displayW / naturalW` (and likewise on the y-axis). -/
def computeScales (naturalWidth naturalHeight clientWidth clientHeight : ℚ) :
    ℚ × ℚ :=
  let naturalW := jsOr naturalWidth 1
  let naturalH := jsOr naturalHeight 1
  let displayW := jsOr clientWidth naturalW
  let displayH := jsOr clientHeight naturalH
  (displayW / naturalW, displayH / naturalH)

/-- The image element's on-screen origin (`getBoundingClientRect().left/top`). -/
structure ImgOrigin where
  left : ℚ
  top : ℚ
deriving DecidableEq, Repr

/-- `getEventCoordinates`: returns `(0, 0)` when `imgRef.current` is absent;
otherwise subtracts the bounding-rect origin from the client position and
divides each axis by its scale factor. -/
def getEventCoordinates (imgRef : Option ImgOrigin)
    (clientX clientY scaleX scaleY : ℚ) : ℚ × ℚ :=
  match imgRef with
  | none => (0, 0)
  | some bounds =>
      ((clientX - bounds.left) / scaleX, (clientY - bounds.top) / scaleY)

/-- The `scaledBoxes` map: converts every box to displayed space by
multiplying each geometry field by the matching scale factor. -/
def scaledBoxes (allBoxes : List Box) (scaleX scaleY : ℚ) : List ScaledBox :=
  allBoxes.map fun box =>
    ⟨box, box.x * scaleX, box.y * scaleY, box.width * scaleX, box.height * scaleY⟩

/-- The filtering effect: `'all'` keeps every box; a category filter keeps
exactly the boxes with `box.category_id === catId`. -/
def deriveVisible (boxes : List Box) (filterCategory : CategoryFilter) :
    List Box :=
  match filterCategory with
  | CategoryFilter.all => boxes
  | CategoryFilter.cat catId => boxes.filter fun box => box.category_id = some catId

/-- The drawing branch of `handleMouseMove`: the functional `setCurrentBox`
update, every new field computed from `prev`. -/
def moveDraw (prev : Box) (realX realY : ℚ) : Box :=
  { prev with
    width := |realX - prev.x|
    height := |realY - prev.y|
    x := if realX < prev.x then realX else prev.x
    y := if realY < prev.y then realY else prev.y }

/-- The per-box update of the resizing branch of `handleMouseMove`
(`isTopLeft = (resizingCorner === 'top-left')`). -/
def resizeBox (box : Box) ( isTopLeft : Bool) (realX realY : ℚ) : Box :=
  let newWidth := if isTopLeft then box.width + (box.x - realX)
                  else |realX - box.x|
  let newHeight := if isTopLeft then box.height + (box.y - realY)
                   else |realY - box.y|
  { box with
    x := if isTopLeft then realX else box.x
    y := if isTopLeft then realY else box.y
    width := max 1 newWidth
    height := max 1 newHeight }

/-- `handleMouseDown`: with a selected or editing box the click only clears
the selection; otherwise it starts drawing a provisional zero-size box at the
natural-space pointer position.  `metadata` is the `metadata.fileName` value
when present (the JS falls back to `'default_filename'` on a falsy value). -/
def handleMouseDown (s : ViewerState) (realX realY : ℚ)
    (filterCategory : CategoryFilter) (metadata : Option String) : ViewerState :=
  if s.selectedBoxId ≠ none ∨ s.editingBoxId ≠ none then
    { s with selectedBoxId := none, editingBoxId := none,
             isCategoryMenuOpen := false }
  else
    { s with
      isDrawing := true
      currentBox := some
        { id := ""
          x := realX
          y := realY
          width := 0
          height := 0
          category_id := match filterCategory with
            | CategoryFilter.all => none
            | CategoryFilter.cat k => some k
          isBackend := false
          file_name := match metadata with
            | some f => if f = "" then "default_filename" else f
            | none => "default_filename"
          fadeOut := false } }

/-- `handleMouseMove`: no-op unless drawing or resizing; while drawing it
rewrites the provisional box with `moveDraw`; while resizing it maps
`resizeBox` over the box matching `activeBoxId`. -/
def handleMouseMove (s : ViewerState) (realX realY : ℚ) : ViewerState :=
  if ¬ s.isDrawing ∧ ¬ s.isResizing then s
  else
    match s.isDrawing, s.currentBox with
    | true, some prev => { s with currentBox := some (moveDraw prev realX realY) }
    | _, _ =>
      match s.isResizing, s.activeBoxId with
      | true, some aid =>
          let tl := match s.resizingCorner with
            | some Corner.topLeft => true
            | _ => false
          { s with allBoxes := s.allBoxes.map fun box =>
              if box.id = aid then resizeBox box tl realX realY else box }
      | _, _ => s

/-- `handleMouseUp`: while drawing, appends the provisional box (stamped with
`id = Date.now().toString()`, the clock passed as `now`) to `allBoxes` and
clears the drawing state; always clears the resizing state. -/
def handleMouseUp (s : ViewerState) (now : Nat) : ViewerState :=
  let s1 := match s.isDrawing, s.currentBox with
    | true, some cb =>
        { s with
          allBoxes := s.allBoxes ++ [{ cb with id := toString now }]
          isDrawing := false
          currentBox := none }
    | _, _ => s
  { s1 with isResizing := false, activeBoxId := none, resizingCorner := none }

/-- A quiescent viewer state over a given store (nothing selected, drawn or
resized). -/
def idleState (bs : List Box) : ViewerState :=
  { allBoxes := bs
    isDrawing := false
    currentBox := none
    isResizing := false
    activeBoxId := none
    resizingCorner := none
    selectedBoxId := none
    editingBoxId := none
    isCategoryMenuOpen := false }

/-- A full drawing gesture: mouse-down at `p0`, the given sequence of
mouse-moves (the last one is the end point), then mouse-up at clock `now`. -/
def drawGesture (s : ViewerState) (p0 : ℚ × ℚ) (moves : List (ℚ × ℚ))
    (now : Nat) : ViewerState :=
  handleMouseUp
    (moves.foldl (fun st m => handleMouseMove st m.1 m.2)
      (handleMouseDown s p0.1 p0.2 CategoryFilter.all none))
    now

/-- Phase one of the delete action: mark the selected box `fadeOut`. -/
def markFadeOut (boxes : List Box) (selectedBoxId : String) : List Box :=
  boxes.map fun b => if b.id = selectedBoxId then { b with fadeOut := true } else b

/-- Phase two (the deferred timer): drop every box whose `fadeOut` is set. -/
def removeFaded (boxes : List Box) : List Box :=
  boxes.filter fun b => !b.fadeOut

/-- The user-visible delete action after the timer elapses: mark, then sweep. -/
def deleteAction (boxes : List Box) (selectedBoxId : String) : List Box :=
  removeFaded (markFadeOut boxes selectedBoxId)

/-- A raw backend prediction (`image_id` absent or `0` is falsy in JS). -/
structure Prediction where
  image_id : Option Nat
  category_id : Option Int
  bbox : ℚ × ℚ × ℚ × ℚ
  file_name : String
deriving DecidableEq, Repr

/-- One entry of the `processedPredictions` map: the id is
`pred-image_id` when `image_id` is truthy, else `Date.now()-idx`; the
two-corner `bbox` becomes `x, y, width, height`. -/
def predictionBox (now : Nat) (idx : Nat) (pred : Prediction) : Box :=
  { id := match pred.image_id with
      | some i => if i = 0 then toString now ++ "-" ++ toString idx
                  else "pred-" ++ toString i
      | none => toString now ++ "-" ++ toString idx
    x := pred.bbox.1
    y := pred.bbox.2.1
    width := pred.bbox.2.2.1 - pred.bbox.1
    height := pred.bbox.2.2.2 - pred.bbox.2.1
    category_id := pred.category_id
    isBackend := true
    file_name := pred.file_name
    fadeOut := false }

/-- The `processedPredictions` map over a backend response, at clock `now`. -/
def processedPredictions (now : Nat) (preds : List Prediction) : List Box :=
  preds.enum.map fun p => predictionBox now p.1 p.2

/-! ## Concrete boxes and predictions used in closed statements -/

/-- A sample box with nontrivial geometry. -/
def boxA : Box :=
  { id := "a", x := 3, y := 4, width := 5, height := 6,
    category_id := some 2, isBackend := false, file_name := "page.png",
    fadeOut := false }

/-- A box already marked `fadeOut` (mid two-phase removal). -/
def boxFading : Box :=
  { id := "1", x := 0, y := 0, width := 1, height := 1,
    category_id := some 0, isBackend := true, file_name := "page.png",
    fadeOut := true }

/-- A plain box distinct from `boxFading`. -/
def boxPlain : Box :=
  { id := "2", x := 2, y := 2, width := 3, height := 3,
    category_id := some 1, isBackend := true, file_name := "page.png",
    fadeOut := false }

/-- Two backend predictions sharing the same `image_id`. -/
def predA : Prediction :=
  { image_id := some 7, category_id := some 0, bbox := (0, 0, 10, 10),
    file_name := "page.png" }

/-- Second prediction with the same `image_id` as `predA`. -/
def predB : Prediction :=
  { image_id := some 7, category_id := some 1, bbox := (5, 5, 20, 20),
    file_name := "page.png" }

/-! ## Theorems -/

/-- C10: when the image element reference is absent, `getEventCoordinates`
is total and returns `(0, 0)`. -/
theorem pointer_without_image (clientX clientY scaleX scaleY : ℚ) :
    getEventCoordinates none clientX clientY scaleX scaleY = (0, 0) := rfl

/-- C6: pointer-to-natural conversion subtracts the image origin and divides
by the scale factors; with natural 2000x3000 displayed at 500x750 the scales
are (1/4, 1/4) and a click at displayed (100, 150) maps to natural (400, 600). -/
theorem pointer_to_natural_spec :
    (∀ (o : ImgOrigin) (clientX clientY scaleX scaleY : ℚ),
      getEventCoordinates (some o) clientX clientY scaleX scaleY =
        ((clientX - o.left) / scaleX, (clientY - o.top) / scaleY)) ∧
    computeScales 2000 3000 500 750 = (1/4, 1/4) ∧
    getEventCoordinates (some ⟨0, 0⟩) 100 150 (1/4) (1/4) = (400, 600) :=
  ⟨fun _ _ _ _ _ => rfl, by norm_num [computeScales, jsOr],
    by norm_num [getEventCoordinates]⟩

/-- C1 (failing input): a mouse-down at natural (10, 10) followed directly by
mouse-up commits a box with width = 0 and height = 0 — `handleMouseUp` has no
zero-size skip, so the store does not stay unchanged. -/
theorem clickWithoutDrag_commits_degenerate_box :
    (drawGesture (idleState []) (10, 10) [] 1000).allBoxes =
      [{ id := "1000", x := 10, y := 10, width := 0, height := 0,
         category_id := none, isBackend := false,
         file_name := "default_filename", fadeOut := false }] ∧
    (idleState []).allBoxes = [] := by decide

/-- C2 (counterexample): dragging from P0 = (10, 10) through (0, 10) to
P1 = (20, 10) commits a box with x = 0 and width = 20, not
x = min 10 20 = 10 and width = |20 - 10| = 10: the running-minimum update
loses the original start corner on non-monotone move sequences. -/
theorem drawGesture_nonmonotone_counterexample :
    ((drawGesture (idleState []) (10, 10) [(0, 10), (20, 10)] 5).allBoxes.map
      (fun b => (b.x, b.y, b.width, b.height)) = [(0, 10, 20, 0)]) ∧
    ¬ ((0 : ℚ) = min 10 20 ∧ (20 : ℚ) = |(20 : ℚ) - 10|) := by
  constructor
  · norm_num [drawGesture, idleState, handleMouseDown, handleMouseMove,
      handleMouseUp, moveDraw, abs_of_nonneg, abs_of_nonpos]
  · norm_num [min_def, abs_of_nonneg]

/-- C9 (failing input): two predictions with the same `image_id` both receive
the id `pred-7`, so the processed box list has a duplicate id. -/
theorem processedPredictions_duplicate_ids :
    (processedPredictions 1000 [predA, predB]).map Box.id =
      ["pred-7", "pred-7"] ∧
    ¬ ((processedPredictions 1000 [predA, predB]).map Box.id).Nodup := by
  decide

/-- C7 (counterexample): with natural dimensions unavailable (0) but displayed
dimensions 500x750, the computed scales are (500, 750), not the identity 1. -/
theorem computeScales_not_identity :
    computeScales 0 0 500 750 = (500, 750) ∧
    ((500 : ℚ), (750 : ℚ)) ≠ ((1 : ℚ), (1 : ℚ)) := by
  norm_num [computeScales, jsOr]

/-- C8 (counterexample): deleting box "2" from a store in which `boxFading`
is still mid-fade removes both boxes — the deferred sweep drops every
`fadeOut`-marked box, so more than one entry disappears. -/
theorem deleteAction_counterexample :
    deleteAction [boxFading, boxPlain] "2" = [] ∧
    deleteAction [boxFading, boxPlain] "2" ≠ [boxFading] := by decide

/-- The drag-normalization `if` computes a minimum. -/
theorem if_lt_min (a b : ℚ) : (if a < b then a else b) = min b a := by
  rcases lt_or_ge a b with h | h
  · simp [h, min_eq_right h.le]
  · simp [not_lt.mpr h, min_eq_left h]

/-- C2 (amended): for a drawing gesture consisting of a single pointer-move
from P0 to P1, in any of the four quadrant directions, the committed box has
x = min(P0.x, P1.x), y = min(P0.y, P1.y), width = |P1.x - P0.x| and
height = |P1.y - P0.y|, appended to the store. -/
theorem drawGesture_single_move (bs : List Box) (p0x p0y p1x p1y : ℚ)
    (now : Nat) :
    (drawGesture (idleState bs) (p0x, p0y) [(p1x, p1y)] now).allBoxes =
      bs ++ [{ id := toString now, x := min p0x p1x, y := min p0y p1y,
               width := |p1x - p0x|, height := |p1y - p0y|,
               category_id := none, isBackend := false,
               file_name := "default_filename", fadeOut := false }] := by
  simp [drawGesture, idleState, handleMouseDown, handleMouseMove,
    handleMouseUp, moveDraw, if_lt_min]

/-- C3: converting a box list to displayed space and dividing every scaled
field by its scale factor reconstructs the list exactly, for positive scales. -/
theorem scaledBoxes_roundTrip (bs : List Box) (sx sy : ℚ)
    (hx : 0 < sx) (hy : 0 < sy) :
    (scaledBoxes bs sx sy).map (fun sb =>
      { sb.box with
          x := sb.scaledX / sx,
          y := sb.scaledY / sy,
          width := sb.scaledW / sx,
          height := sb.scaledH / sy }) = bs := by
  induction bs with
  | nil => rfl
  | cons b bs ih =>
      simp only [scaledBoxes, List.map_cons] at ih ⊢
      obtain ⟨i, x, y, w, h, c, ib, fn, fo⟩ := b
      simp [mul_div_cancel_right₀, hx.ne', hy.ne', ih]

/-- C3 witness at a concrete box and scales (1/2, 1/3). -/
theorem scaledBoxes_roundTrip_witness :
    (0 : ℚ) < 1/2 ∧ (0 : ℚ) < 1/3 ∧
    (scaledBoxes [boxA] (1/2) (1/3)).map (fun sb =>
      { sb.box with
          x := sb.scaledX / (1/2),
          y := sb.scaledY / (1/3),
          width := sb.scaledW / (1/2),
          height := sb.scaledH / (1/3) }) =
      [boxA] :=
  ⟨by norm_num, by norm_num,
    scaledBoxes_roundTrip [boxA] (1/2) (1/3) (by norm_num) (by norm_num)⟩

/-- C5: the sentinel filter returns every box unchanged in order; a category
filter returns an order-preserving subsequence holding exactly the boxes whose
category id matches. -/
theorem deriveVisible_spec (bs : List Box) (k : Int) :
    deriveVisible bs CategoryFilter.all = bs ∧
    List.Sublist (deriveVisible bs (CategoryFilter.cat k)) bs ∧
    ∀ b : Box, b ∈ deriveVisible bs (CategoryFilter.cat k) ↔
      (b ∈ bs ∧ b.category_id = some k) := by
  refine ⟨rfl, List.filter_sublist bs, fun b => ?_⟩
  simp [deriveVisible, List.mem_filter]

/-- C4: a resize pointer-move rewrites exactly the box matching the active id
via `resizeBox`; the bottom-right anchor never moves x or y; the top-left
anchor keeps the bottom-right corner fixed whenever the minimum-size floor
does not bind; and the resulting width and height are always at least 1. -/
theorem resize_spec (s : ViewerState) (aid : String) (rx ry : ℚ)
    (b : Box) ( tl : Bool)
    (hd : s.isDrawing = false) (hr : s.isResizing = true)
    (ha : s.activeBoxId = some aid) :
    ((handleMouseMove s rx ry).allBoxes =
      s.allBoxes.map (fun box =>
        if box.id = aid then
          resizeBox box
            (match s.resizingCorner with
              | some Corner.topLeft => true
              | _ => false) rx ry
        else box)) ∧
    (1 ≤ (resizeBox b tl rx ry).width ∧ 1 ≤ (resizeBox b tl rx ry).height) ∧
    ((resizeBox b false rx ry).x = b.x ∧ (resizeBox b false rx ry).y = b.y) ∧
    (1 ≤ b.width + (b.x - rx) →
      (resizeBox b true rx ry).x + (resizeBox b true rx ry).width =
        b.x + b.width) ∧
    (1 ≤ b.height + (b.y - ry) →
      (resizeBox b true rx ry).y + (resizeBox b true rx ry).height =
        b.y + b.height) := by
  refine ⟨?_, ⟨le_max_left 1 _, le_max_left 1 _⟩, ⟨rfl, rfl⟩, ?_, ?_⟩
  · cases hcb : s.currentBox <;>
      simp [handleMouseMove, hd, hr, ha, hcb]
  · intro h
    show rx + max 1 (b.width + (b.x - rx)) = b.x + b.width
    rw [max_eq_right h]; ring
  · intro h
    show ry + max 1 (b.height + (b.y - ry)) = b.y + b.height
    rw [max_eq_right h]; ring

/-- A concrete state mid-resize of `boxA` from its top-left corner. -/
def resizingState : ViewerState :=
  { allBoxes := [boxA]
    isDrawing := false
    currentBox := none
    isResizing := true
    activeBoxId := some "a"
    resizingCorner := some Corner.topLeft
    selectedBoxId := none
    editingBoxId := none
    isCategoryMenuOpen := false }

/-- C4 witness at a concrete resizing state and pointer position (2, 3). -/
theorem resize_spec_witness :
    resizingState.isDrawing = false ∧ resizingState.isResizing = true ∧
    resizingState.activeBoxId = some "a" ∧
    (((handleMouseMove resizingState 2 3).allBoxes =
      resizingState.allBoxes.map (fun box =>
        if box.id = "a" then
          resizeBox box
            (match resizingState.resizingCorner with
              | some Corner.topLeft => true
              | _ => false) 2 3
        else box)) ∧
    (1 ≤ (resizeBox boxA true 2 3).width ∧
      1 ≤ (resizeBox boxA true 2 3).height) ∧
    ((resizeBox boxA false 2 3).x = boxA.x ∧
      (resizeBox boxA false 2 3).y = boxA.y) ∧
    (1 ≤ boxA.width + (boxA.x - 2) →
      (resizeBox boxA true 2 3).x + (resizeBox boxA true 2 3).width =
        boxA.x + boxA.width) ∧
    (1 ≤ boxA.height + (boxA.y - 3) →
      (resizeBox boxA true 2 3).y + (resizeBox boxA true 2 3).height =
        boxA.y + boxA.height)) :=
  ⟨rfl, rfl, rfl, resize_spec resizingState "a" 2 3 boxA true rfl rfl rfl⟩

/-- The JS `||` fallback is positive whenever its operands allow. -/
theorem jsOr_pos {a b : ℚ} (ha : 0 ≤ a) (hb : 0 < b) : 0 < jsOr a b := by
  rcases eq_or_ne a 0 with h | h
  · simpa [jsOr, h] using hb
  · simpa [jsOr, h] using lt_of_le_of_ne ha (Ne.symm h)

/-- C7 (amended): the dimension fallbacks keep both scale factors strictly
positive for all non-negative inputs (no division by zero), and the scales
are the identity 1 when displayed dimensions are also unavailable. -/
theorem computeScales_positive (nw nh cw ch : ℚ)
    (h1 : 0 ≤ nw) (h2 : 0 ≤ nh) (h3 : 0 ≤ cw) (h4 : 0 ≤ ch) :
    0 < (computeScales nw nh cw ch).1 ∧ 0 < (computeScales nw nh cw ch).2 ∧
    computeScales 0 0 0 0 = (1, 1) := by
  have hnw : 0 < jsOr nw 1 := jsOr_pos h1 one_pos
  have hnh : 0 < jsOr nh 1 := jsOr_pos h2 one_pos
  refine ⟨?_, ?_, by norm_num [computeScales, jsOr]⟩
  · show 0 < jsOr cw (jsOr nw 1) / jsOr nw 1
    exact div_pos (jsOr_pos h3 hnw) hnw
  · show 0 < jsOr ch (jsOr nh 1) / jsOr nh 1
    exact div_pos (jsOr_pos h4 hnh) hnh

/-- C7 amended witness at natural dimensions 0 and displayed 500 x 750. -/
theorem computeScales_positive_witness :
    (0 : ℚ) ≤ 0 ∧ (0 : ℚ) ≤ 0 ∧ (0 : ℚ) ≤ 500 ∧ (0 : ℚ) ≤ 750 ∧
    (0 < (computeScales 0 0 500 750).1 ∧ 0 < (computeScales 0 0 500 750).2 ∧
      computeScales 0 0 0 0 = (1, 1)) :=
  ⟨le_refl 0, le_refl 0, by norm_num, by norm_num,
    computeScales_positive 0 0 500 750 (le_refl 0) (le_refl 0)
      (by norm_num) (by norm_num)⟩

/-- Mark-then-sweep leaves a list untouched when no element is faded and none
matches the target id. -/
theorem deleteAction_untouched (l : List Box) (tid : String)
    (h : ∀ b ∈ l, b.fadeOut = false ∧ b.id ≠ tid) :
    removeFaded (markFadeOut l tid) = l := by
  induction l with
  | nil => rfl
  | cons b l ih =>
      have hb := h b (List.mem_cons_self b l)
      have hl : ∀ x ∈ l, x.fadeOut = false ∧ x.id ≠ tid :=
        fun x hx => h x (List.mem_cons_of_mem b hx)
      have ih' := ih hl
      simp only [markFadeOut, removeFaded, List.map_cons, List.filter_cons]
        at ih' ⊢
      simp [hb.1, hb.2, ih']

/-- C8 (amended): provided no box in the store is already marked `fadeOut`
and the deleted id matches exactly one box, the delete action (after the
deferred sweep) removes exactly that box and leaves every other box, in
order, unchanged. -/
theorem deleteAction_removes_exactly_target (l1 l2 : List Box) (t : Box)
    (hfade : ∀ b ∈ l1 ++ t :: l2, b.fadeOut = false)
    (hid : ∀ b ∈ l1 ++ l2, b.id ≠ t.id) :
    deleteAction (l1 ++ t :: l2) t.id = l1 ++ l2 := by
  have h1 : ∀ b ∈ l1, b.fadeOut = false ∧ b.id ≠ t.id := fun b hb =>
    ⟨hfade b (List.mem_append_left _ hb), hid b (List.mem_append_left _ hb)⟩
  have h2 : ∀ b ∈ l2, b.fadeOut = false ∧ b.id ≠ t.id := fun b hb =>
    ⟨hfade b (List.mem_append_right _ (List.mem_cons_of_mem _ hb)),
     hid b (List.mem_append_right _ hb)⟩
  have e1 := deleteAction_untouched l1 t.id h1
  have e2 := deleteAction_untouched l2 t.id h2
  simp only [markFadeOut, removeFaded] at e1 e2
  simp [deleteAction, markFadeOut, removeFaded, List.filter_append, e1, e2]

/-- C8 amended witness: deleting `boxA` from `[boxPlain, boxA]` leaves
exactly `[boxPlain]`. -/
theorem deleteAction_removes_exactly_target_witness :
    (∀ b ∈ [boxPlain] ++ boxA :: [], b.fadeOut = false) ∧
    (∀ b ∈ [boxPlain] ++ ([] : List Box), b.id ≠ boxA.id) ∧
    deleteAction ([boxPlain] ++ boxA :: []) boxA.id = [boxPlain] ++ [] :=
  ⟨by decide, by decide,
    deleteAction_removes_exactly_target [boxPlain] [] boxA
      (by decide) (by decide)⟩
